import Mathlib

/-!
# Verification of the Aegis e2e provisioning test driver

A shallow embedding of `backend/test/container/e2e-provisioning-test.py`:
the TOTP generator (RFC 4226/6238 HMAC-SHA1 based), the provisioning
poller, the container and health-monitor verifiers, and the `main`
orchestrator, together with theorems settling the specification claims.

Bytes are modelled as `Nat` values below 256; 32-bit machine arithmetic is
`Nat` arithmetic reduced modulo `2 ^ 32`.
-/

namespace Aegis

/-! ## Byte-level helpers -/

/-- Big-endian serialization of `v` into `n` bytes (`struct.pack` style). -/
def bytesBE : Nat → Nat → List Nat
  | 0, _ => []
  | n + 1, v => ((v >>> (8 * n)) % 256) :: bytesBE n v

/-- Big-endian deserialization of a byte list into a natural number. -/
def wordBE (bs : List Nat) : Nat := bs.foldl (fun a b => a * 256 + b) 0

/-- 32-bit left rotation, on `Nat` reduced mod `2 ^ 32`. -/
def rotl32 (n x : Nat) : Nat :=
  (((x <<< n) % 4294967296) ||| (x >>> (32 - n)))

/-! ## SHA-1 (FIPS 180-1), as called through Python `hashlib.sha1` -/

/-- SHA-1 round function `f_t(b,c,d)`. -/
def sha1f (t b c d : Nat) : Nat :=
  if t < 20 then (b &&& c) ||| ((b ^^^ 4294967295) &&& d)
  else if t < 40 then b ^^^ c ^^^ d
  else if t < 60 then (b &&& c) ||| (b &&& d) ||| (c &&& d)
  else b ^^^ c ^^^ d

/-- SHA-1 round constant `K_t`. -/
def sha1k (t : Nat) : Nat :=
  if t < 20 then 0x5A827999
  else if t < 40 then 0x6ED9EBA1
  else if t < 60 then 0x8F1BBCDC
  else 0xCA62C1D6

/-- Group a byte list into big-endian 32-bit words. -/
def toWords : List Nat → List Nat
  | b0 :: b1 :: b2 :: b3 :: rest =>
      (b0 <<< 24 ||| b1 <<< 16 ||| b2 <<< 8 ||| b3) :: toWords rest
  | _ => []

/-- Extend the (reversed) message schedule by `n` further words:
`W_t = ROTL1(W_{t-3} xor W_{t-8} xor W_{t-14} xor W_{t-16})`.
The list holds the newest word first. -/
def sha1extend (ws : List Nat) : Nat → List Nat
  | 0 => ws
  | n + 1 =>
      sha1extend
        (rotl32 1 (ws.getD 2 0 ^^^ ws.getD 7 0 ^^^ ws.getD 13 0 ^^^ ws.getD 15 0) :: ws) n

/-- One SHA-1 round applied to the working state `(t, a, b, c, d, e)`. -/
def sha1round (st : Nat × Nat × Nat × Nat × Nat × Nat) (wt : Nat) :
    Nat × Nat × Nat × Nat × Nat × Nat :=
  match st with
  | (t, a, b, c, d, e) =>
      let temp := (rotl32 5 a + sha1f t b c d + e + sha1k t + wt) % 4294967296
      (t + 1, temp, a, rotl32 30 b, c, d)

/-- SHA-1 compression of one 64-byte block into the chaining state. -/
def sha1compress (h : Nat × Nat × Nat × Nat × Nat) (block : List Nat) :
    Nat × Nat × Nat × Nat × Nat :=
  let w := (sha1extend (toWords block).reverse 64).reverse
  match h with
  | (h0, h1, h2, h3, h4) =>
      match w.foldl sha1round (0, h0, h1, h2, h3, h4) with
      | (_, a, b, c, d, e) =>
          ((h0 + a) % 4294967296, (h1 + b) % 4294967296, (h2 + c) % 4294967296,
           (h3 + d) % 4294967296, (h4 + e) % 4294967296)

/-- SHA-1 padding: append `0x80`, zeros, then the 64-bit big-endian bit length,
reaching a multiple of 64 bytes. -/
def sha1pad (msg : List Nat) : List Nat :=
  let len := msg.length
  let zeros := (64 - ((len + 9) % 64)) % 64
  msg ++ [0x80] ++ List.replicate zeros 0 ++ bytesBE 8 (len * 8)

/-- Fold the compression function over `n` 64-byte blocks. -/
def sha1go : Nat → (Nat × Nat × Nat × Nat × Nat) → List Nat → Nat × Nat × Nat × Nat × Nat
  | 0, h, _ => h
  | n + 1, h, bytes => sha1go n (sha1compress h (bytes.take 64)) (bytes.drop 64)

/-- SHA-1 of a byte list, producing the 20-byte digest. -/
def sha1 (msg : List Nat) : List Nat :=
  let padded := sha1pad msg
  match sha1go (padded.length / 64) (0x67452301, 0xEFCDAB89, 0x98BADCFE, 0x10325476, 0xC3D2E1F0)
      padded with
  | (h0, h1, h2, h3, h4) =>
      bytesBE 4 h0 ++ bytesBE 4 h1 ++ bytesBE 4 h2 ++ bytesBE 4 h3 ++ bytesBE 4 h4

/-! ## HMAC-SHA1 (RFC 2104), as called through Python `hmac.new(..., hashlib.sha1)` -/

/-- HMAC-SHA1 with a 64-byte block size. -/
def hmacSha1 (key msg : List Nat) : List Nat :=
  let key := if key.length > 64 then sha1 key else key
  let key := key ++ List.replicate (64 - key.length) 0
  let ipad := key.map (fun b => b ^^^ 0x36)
  let opad := key.map (fun b => b ^^^ 0x5C)
  sha1 (opad ++ sha1 (ipad ++ msg))

/-! ## Base32 decoding (Python `base64.b32decode(s, casefold=True)`) -/

/-- Value of one character of the RFC 4648 base32 alphabet. -/
def b32val (c : Char) : Option Nat :=
  if 'A' ≤ c ∧ c ≤ 'Z' then some (c.toNat - 65)
  else if '2' ≤ c ∧ c ≤ '7' then some (c.toNat - 24)
  else none

/-- Base32 decoding with case folding: uppercase the input, require a length
that is a multiple of 8, allow a valid run of trailing `=` padding, map each
character to 5 bits and emit the resulting whole bytes. Returns `none` on
invalid input (Python raises `binascii.Error`). -/
def b32decode (s : String) : Option (List Nat) :=
  let cs := s.data.map Char.toUpper
  let dataPart := cs.takeWhile (fun c => c ≠ '=')
  let pad := cs.length - dataPart.length
  if cs.length % 8 ≠ 0 then none
  else if (cs.drop dataPart.length).any (fun c => c ≠ '=') then none
  else if ¬ (pad = 0 ∨ pad = 1 ∨ pad = 3 ∨ pad = 4 ∨ pad = 6) then none
  else match dataPart.mapM b32val with
    | none => none
    | some vs =>
        let nbytes := vs.length * 5 / 8
        let n := vs.foldl (fun a v => a * 32 + v) 0
        some (bytesBE nbytes (n >>> (vs.length * 5 - 8 * nbytes)))

/-! ## The TOTP generator (`generate_totp`) -/

/-- Dynamic truncation (RFC 4226 §5.3): the low nibble of the last digest
byte selects a 4-byte big-endian window, whose top bit is cleared. -/
def dynamicTruncate (h : List Nat) : Nat :=
  let offset := h.getLastD 0 &&& 0x0F
  wordBE ((h.drop offset).take 4) &&& 0x7FFFFFFF

/-- Python `str(n).zfill(6)` for the code value. -/
def zfill6 (n : Nat) : String :=
  let s := toString n
  ⟨List.replicate (6 - s.length) '0' ++ s.data⟩

/-- `generate_totp` from the source, with the `time.time()` reading made an
explicit `time` argument (seconds since the epoch). Returns `none` when
base32 decoding of the secret fails (Python raises `binascii.Error`). -/
def generate_totp (secret_b32 : String) (time : Nat) (period : Nat := 30) : Option String :=
  match b32decode secret_b32 with
  | none => none
  | some key =>
      let counter := time / period
      let msg := bytesBE 8 counter
      let h := hmacSha1 key msg
      some (zfill6 (dynamicTruncate h % 1000000))

/-! ## Tenant records and console events

The backend's tenant record, restricted to the fields the driver reads.
`Option` models a field absent from the JSON object; `HealthField`
additionally models a present-but-non-dict `containerHealth` value, which
the source guards with `isinstance(health, dict)`. -/

/-- The nested `config` object of a tenant record. -/
structure TenantConfig where
  containerEndpoint : Option String
deriving DecidableEq

/-- The `containerHealth` field: absent, present but not a dict, or a dict
with an optional `status` entry. -/
inductive HealthField where
  | missing
  | notDict
  | dict (status : Option String)
deriving DecidableEq

/-- A snapshot of a tenant record, as read by the driver. -/
structure Tenant where
  id : String
  status : Option String
  provisioningFailedReason : Option String
  config : Option TenantConfig
  containerHealth : HealthField
deriving DecidableEq

/-- `t.get("status", "?")` as used by the poller. -/
def statusD (t : Tenant) : String := t.status.getD "?"

/-- `tenant.get("config", {}).get("containerEndpoint", "")`. -/
def endpointD (t : Tenant) : String :=
  match t.config with
  | none => ""
  | some c => c.containerEndpoint.getD ""

/-- `containerHealth`-derived status string:
`t.get("containerHealth", {}).get("status", "?")` guarded by `isinstance`. -/
def healthStatusD (t : Tenant) : String :=
  match t.containerHealth with
  | .missing => "?"
  | .notDict => "?"
  | .dict s => s.getD "?"

/-- Console output and externally visible actions of the driver, one
constructor per `print` statement or outward request in the source. -/
inductive Msg where
  | pollStart
  | pollProgress (i : Nat) (status : String)
  | provisioningSucceeded
  | provisioningFailedMsg (reason : String)
  | pollTimeoutMsg (timeout_secs : Nat)
  | verifyStart
  | noEndpointError
  | containerUrl (url : String)
  | dockerQueried
  | dockerFound (line : String)
  | dockerNotFoundWarning
  | dockerCheckWarning
  | httpProbed (url : String)
  | httpOk (status : Nat)
  | httpExpected (code : Nat)
  | httpUnexpected (code : Nat)
  | containerNotResponding
  | healthStart
  | healthStatusMsg (s : String)
  | healthMonitorOk
  | healthWarning (s : String)
  | failedProvisioning
  | failedContainer
  | warnHealthNonFatal
  | allChecksPassed
  | fatalError
deriving DecidableEq

/-! ## The provisioning poller (`poll_provisioning`) -/

/-- The fixed polling interval of the source (seconds). -/
def interval : Nat := 10

/-- How `poll_provisioning` ended: an early `return` on a terminal status, a
fall-through `return` of the last-fetched record after the loop, or a
`NameError` when the loop never ran and `t` was never bound. -/
inductive PollRes where
  | terminal (t : Tenant)
  | timeout (t : Tenant)
  | nameError
deriving DecidableEq

/-- Result of a poller run: how it ended, how many status fetches it made,
and the console events it produced. -/
structure PollOutcome where
  res : PollRes
  fetches : Nat
  log : List Msg
deriving DecidableEq

/-- The loop of `poll_provisioning`: `remaining` iterations left, `i` fetches
made so far, `last` the previously fetched record (the Python variable `t`,
unbound iff `none`). -/
def pollGo (fetch : Nat → Tenant) (timeout_secs : Nat) :
    Nat → Nat → Option Tenant → List Msg → PollOutcome
  | 0, i, last, log =>
      match last with
      | none => ⟨.nameError, i, log ++ [.pollTimeoutMsg timeout_secs]⟩
      | some t => ⟨.timeout t, i, log ++ [.pollTimeoutMsg timeout_secs]⟩
  | r + 1, i, _, log =>
      let t := fetch i
      let s := statusD t
      let log := log ++ [.pollProgress i s]
      if s = "active" then ⟨.terminal t, i + 1, log ++ [.provisioningSucceeded]⟩
      else if s = "failed" then
        ⟨.terminal t, i + 1,
          log ++ [.provisioningFailedMsg (t.provisioningFailedReason.getD "unknown")]⟩
      else pollGo fetch timeout_secs r (i + 1) (some t) log

/-- `poll_provisioning`, with the scripted backend given as the function
`fetch` from fetch index to returned tenant record. -/
def poll_provisioning (fetch : Nat → Tenant) (timeout_secs : Nat) : PollOutcome :=
  pollGo fetch timeout_secs (timeout_secs / interval) 0 none [.pollStart]

/-! ## The post-provision verifier (`verify_container`, `verify_health_monitor`) -/

/-- Is `n` a contiguous sublist of `l`? (the Python `in` substring test). -/
def startsList : List Char → List Char → Bool
  | [], _ => true
  | _ :: _, [] => false
  | a :: as, b :: bs => a = b && startsList as bs

/-- Substring containment on character lists. -/
def hasSub (n : List Char) : List Char → Bool
  | [] => n.isEmpty
  | b :: bs => startsList n (b :: bs) || hasSub n bs

/-- Outcome of `urllib.request.urlopen` on the container endpoint:
a response (success status), a raised `HTTPError` with its code, or any
other exception (timeout, connection refused, DNS failure). -/
inductive ProbeOutcome where
  | success (status : Nat)
  | httpError (code : Nat)
  | transportError
deriving DecidableEq

/-- Outcome of the `docker ps` subprocess: its text output, or any raised
exception (non-zero exit, timeout, binary not found). -/
inductive DockerOutcome where
  | output (text : String)
  | exc
deriving DecidableEq

/-- `verify_container` from the source. The docker subprocess and the HTTP
probe are external interactions, passed in as their outcomes; the returned
event list records every print and every outward request the function makes. -/
def verify_container (tenant : Tenant) (docker : DockerOutcome) (probe : ProbeOutcome) :
    Bool × List Msg :=
  let container_url := endpointD tenant
  if container_url = "" then (false, [.verifyStart, .noEndpointError])
  else
    let dockerLog : List Msg :=
      Msg.dockerQueried ::
        match docker with
        | .exc => [.dockerCheckWarning]
        | .output text =>
            let pre8 := tenant.id.take 8
            match (text.trim.splitOn "\n").find? (fun line => hasSub pre8.data line.data) with
            | some line => [.dockerFound line]
            | none => [.dockerNotFoundWarning]
    let head : List Msg := [.verifyStart, .containerUrl container_url] ++ dockerLog
    match probe with
    | .success s => (true, head ++ [.httpProbed container_url, .httpOk s])
    | .httpError c =>
        if c = 404 ∨ c = 426 then (true, head ++ [.httpProbed container_url, .httpExpected c])
        else (false, head ++ [.httpProbed container_url, .httpUnexpected c])
    | .transportError => (false, head ++ [.httpProbed container_url, .containerNotResponding])

/-- `verify_health_monitor` from the source. The status re-fetch is an
external interaction: `.error` means the `api_call` raised (the exception
propagates, there is no handler in the function), `.ok t` is the fetched
record. -/
def verify_health_monitor (fetchRes : Except Unit Tenant) : Except Unit Bool × List Msg :=
  match fetchRes with
  | .error e => (.error e, [.healthStart])
  | .ok t =>
      let h_status := healthStatusD t
      if h_status = "healthy" then
        (.ok true, [.healthStart, .healthStatusMsg h_status, .healthMonitorOk])
      else
        (.ok false, [.healthStart, .healthStatusMsg h_status, .healthWarning h_status])

/-! ## The orchestrator (`main`) -/

/-- The default `timeout_secs` of `poll_provisioning`, used by `main`. -/
def pollTimeoutDefault : Nat := 240

/-- The external world as `main` observes it: outcomes of authentication and
tenant creation (`.error` = the underlying call raised), the scripted
status responses consumed by the poller, the docker and HTTP-probe
outcomes, the health-monitor re-fetch outcome, and the CLI flag. -/
structure Env where
  auth : Except Unit String
  create : Except Unit String
  fetch : Nat → Tenant
  docker : DockerOutcome
  probe : ProbeOutcome
  healthFetch : Except Unit Tenant
  skipHealthWait : Bool

/-- `main` from the source: its process exit code (0 = fell off the end of
the `try`, 1 = `sys.exit(1)`; any exception inside the `try` is caught and
becomes exit 1) and its console events. -/
def main_run (env : Env) : Nat × List Msg :=
  match env.auth with
  | .error _ => (1, [.fatalError])
  | .ok _token =>
      match env.create with
      | .error _ => (1, [.fatalError])
      | .ok _tid =>
          let po := poll_provisioning env.fetch pollTimeoutDefault
          match po.res with
          | .nameError => (1, po.log ++ [.fatalError])
          | .terminal t | .timeout t =>
              if t.status ≠ some "active" then (1, po.log ++ [.failedProvisioning])
              else
                match verify_container t env.docker env.probe with
                | (ok, vlog) =>
                    if !ok then (1, po.log ++ vlog ++ [.failedContainer])
                    else if env.skipHealthWait then (0, po.log ++ vlog ++ [.allChecksPassed])
                    else
                      match verify_health_monitor env.healthFetch with
                      | (.error _, hlog) => (1, po.log ++ vlog ++ hlog ++ [.fatalError])
                      | (.ok hok, hlog) =>
                          if hok then (0, po.log ++ vlog ++ hlog ++ [.allChecksPassed])
                          else
                            (0, po.log ++ vlog ++ hlog ++
                              [.warnHealthNonFatal, .allChecksPassed])

/-! ## Claim theorems -/

set_option maxRecDepth 1000000

/-- C1 (counterexample): with the 16-character secret `GEZDGNBVGY3TQOJQ`
(which decodes to the 10-byte key `1234567890`), `generate_totp` at Unix
time 59 with period 30 returns `"263420"`, not the published RFC 6238
reference code `"287082"` — that code belongs to the 20-byte reference key. -/
theorem generate_totp_16char_not_reference :
    generate_totp "GEZDGNBVGY3TQOJQ" 59 30 = some "263420" ∧
      generate_totp "GEZDGNBVGY3TQOJQ" 59 30 ≠ some "287082" := by
  constructor <;> decide

/-- C1 (amended): `generate_totp` computes the RFC 4226/6238 reference
algorithm; for the RFC 6238 reference secret — the 32-character base32
encoding `GEZDGNBVGY3TQOJQGEZDGNBVGY3TQOJQ` of the 20-byte key
`12345678901234567890` — at Unix time 59 with period 30 it returns
`"287082"`, the low six digits of the published 8-digit reference value
`94287082`, which is the dynamic truncation of the HMAC-SHA1 digest of the
8-byte big-endian counter `59 / 30 = 1` reduced modulo `10^8`; the
16-character secret `GEZDGNBVGY3TQOJQ` instead yields `"263420"`. -/
theorem generate_totp_rfc6238_reference :
    generate_totp "GEZDGNBVGY3TQOJQGEZDGNBVGY3TQOJQ" 59 30 = some "287082" ∧
      dynamicTruncate
          (hmacSha1 ((b32decode "GEZDGNBVGY3TQOJQGEZDGNBVGY3TQOJQ").getD [])
            (bytesBE 8 (59 / 30))) % 100000000 = 94287082 ∧
      generate_totp "GEZDGNBVGY3TQOJQ" 59 30 = some "263420" := by
  refine ⟨by decide, by decide, by decide⟩

/-- C7 (counterexample): the code does not change at every 30-second window
boundary: for the secret `GEZDGNBVGY3TQOJQ`, times 23815499 and 23815500
lie in consecutive windows (counters 793849 and 793850) yet produce the
same code `"192416"`. -/
theorem generate_totp_boundary_collision :
    generate_totp "GEZDGNBVGY3TQOJQ" 23815499 30 =
        generate_totp "GEZDGNBVGY3TQOJQ" 23815500 30 ∧
      (23815499 : Nat) / 30 ≠ 23815500 / 30 := by
  refine ⟨by decide, by decide⟩

/-- C7 (amended): `generate_totp` depends on time only through the window
counter `time / period`: any two times in the same window yield identical
codes. Across a window boundary the code may change (and typically does),
but not necessarily at every boundary. -/
theorem generate_totp_window (s : String) (p t1 t2 : Nat) (h : t1 / p = t2 / p) :
    generate_totp s t1 p = generate_totp s t2 p := by
  unfold generate_totp
  rw [h]

/-- C7 (witness): times 40 and 59 share window 1 of period 30 and get equal
codes. -/
theorem generate_totp_window_witness :
    generate_totp "GEZDGNBVGY3TQOJQ" 40 30 = generate_totp "GEZDGNBVGY3TQOJQ" 59 30 :=
  generate_totp_window "GEZDGNBVGY3TQOJQ" 30 40 59 (by decide)

/-! ## Poller lemmas -/

/-- A tenant record carrying only a status, as scripted backends return. -/
def mkTenant (s : String) : Tenant := ⟨"tenant-123", some s, none, none, .missing⟩

/-- A scripted `provisioning` response. -/
def provTenant : Tenant := mkTenant "provisioning"

/-- A scripted `failed` response with a backend-supplied reason. -/
def failedTenant : Tenant := ⟨"tenant-123", some "failed", some "boom", none, .missing⟩

/-- A scripted `active` response with a container endpoint. -/
def activeTenant : Tenant :=
  ⟨"tenant-123", some "active", none, some ⟨some "http://localhost:4001"⟩, .dict (some "healthy")⟩

/-- A scripted backend: the `i`-th fetch returns the `i`-th list entry
(`provisioning` beyond the end). -/
def script (l : List Tenant) (i : Nat) : Tenant := l.getD i provTenant

theorem statusD_ne_active {t : Tenant} (h : statusD t ≠ "active") :
    t.status ≠ some "active" := by
  intro hs
  exact h (by simp [statusD, hs])

theorem pollGo_nonterm_res (fetch : Nat → Tenant) (ts : Nat)
    (hnt : ∀ j, statusD (fetch j) ≠ "active" ∧ statusD (fetch j) ≠ "failed") :
    ∀ r i last log, (pollGo fetch ts (r + 1) i last log).res = .timeout (fetch (i + r)) ∧
      (pollGo fetch ts (r + 1) i last log).fetches = i + r + 1 := by
  intro r
  induction r with
  | zero =>
      intro i last log
      simp [pollGo, (hnt i).1, (hnt i).2]
  | succ r ih =>
      intro i last log
      have h := ih (i + 1) (some (fetch i)) (log ++ [Msg.pollProgress i (statusD (fetch i))])
      have e : i + 1 + r = i + (r + 1) := by omega
      rw [e] at h
      simpa [pollGo, (hnt i).1, (hnt i).2] using h

theorem pollGo_timeout_mem (fetch : Nat → Tenant) (ts : Nat)
    (hnt : ∀ j, statusD (fetch j) ≠ "active" ∧ statusD (fetch j) ≠ "failed") :
    ∀ r i last log, Msg.pollTimeoutMsg ts ∈ (pollGo fetch ts r i last log).log := by
  intro r
  induction r with
  | zero =>
      intro i last log
      cases last <;> simp [pollGo]
  | succ r ih =>
      intro i last log
      simpa [pollGo, (hnt i).1, (hnt i).2] using
        ih (i + 1) (some (fetch i)) (log ++ [Msg.pollProgress i (statusD (fetch i))])

theorem pollGo_no_failedMsg (fetch : Nat → Tenant) (ts : Nat)
    (hnt : ∀ j, statusD (fetch j) ≠ "active" ∧ statusD (fetch j) ≠ "failed") (reason : String) :
    ∀ r i last log, Msg.provisioningFailedMsg reason ∉ log →
      Msg.provisioningFailedMsg reason ∉ (pollGo fetch ts r i last log).log := by
  intro r
  induction r with
  | zero =>
      intro i last log hlog
      cases last <;> simp [pollGo, hlog]
  | succ r ih =>
      intro i last log hlog
      have hlog2 : Msg.provisioningFailedMsg reason ∉
          log ++ [Msg.pollProgress i (statusD (fetch i))] := by simp [hlog]
      simpa [pollGo, (hnt i).1, (hnt i).2] using
        ih (i + 1) (some (fetch i)) (log ++ [Msg.pollProgress i (statusD (fetch i))]) hlog2

theorem pollGo_first_terminal (fetch : Nat → Tenant) (ts : Nat) :
    ∀ k r i last log, k < r →
      (∀ j, j < k → statusD (fetch (i + j)) ≠ "active" ∧ statusD (fetch (i + j)) ≠ "failed") →
      (statusD (fetch (i + k)) = "active" ∨ statusD (fetch (i + k)) = "failed") →
      (pollGo fetch ts r i last log).res = .terminal (fetch (i + k)) ∧
        (pollGo fetch ts r i last log).fetches = i + k + 1 := by
  intro k
  induction k with
  | zero =>
      intro r i last log hr _hpre hterm
      match r, hr with
      | r + 1, _ =>
        simp only [Nat.add_zero] at hterm
        rcases hterm with h | h
        · simp [pollGo, h]
        · have hne : statusD (fetch i) ≠ "active" := by rw [h]; decide
          simp [pollGo, h, hne]
  | succ k ih =>
      intro r i last log hr hpre hterm
      match r, hr with
      | r + 1, hr =>
        have h0 := hpre 0 (Nat.succ_pos k)
        simp at h0
        have hpre2 : ∀ j, j < k →
            statusD (fetch (i + 1 + j)) ≠ "active" ∧ statusD (fetch (i + 1 + j)) ≠ "failed" := by
          intro j hj
          have := hpre (j + 1) (by omega)
          have e : i + (j + 1) = i + 1 + j := by omega
          rwa [e] at this
        have hterm2 : statusD (fetch (i + 1 + k)) = "active" ∨
            statusD (fetch (i + 1 + k)) = "failed" := by
          have e : i + (k + 1) = i + 1 + k := by omega
          rwa [e] at hterm
        have h := ih r (i + 1) (some (fetch i))
          (log ++ [Msg.pollProgress i (statusD (fetch i))]) (by omega) hpre2 hterm2
        have e : i + 1 + k = i + (k + 1) := by omega
        rw [e] at h
        simpa [pollGo, h0.1, h0.2] using h

/-- C2 (counterexample): with `timeout_secs = 5` (below the 10-second
interval) and an all-`provisioning` backend, `poll_provisioning` makes the
claimed `floor(5/10) = 0` fetches but does not return the last-observed
record as a timeout outcome — it ends in a `NameError`, since the loop
variable `t` was never bound. -/
theorem poll_provisioning_zero_iterations_cex :
    (poll_provisioning (fun _ => provTenant) 5).res = .nameError ∧
      (poll_provisioning (fun _ => provTenant) 5).res ≠ .timeout provTenant ∧
      (poll_provisioning (fun _ => provTenant) 5).fetches = 0 := by
  refine ⟨by decide, by decide, by decide⟩

/-- C2 (amended): for every `timeout_secs` whose iteration budget
`floor(timeout_secs / 10)` is at least 1, and every scripted backend whose
statuses are all non-terminal, `poll_provisioning` makes exactly
`floor(timeout_secs / 10)` status fetches, then stops and returns the
last-observed non-terminal record as a timeout outcome (printing the
timeout message); with a zero iteration budget it instead raises
`NameError`. -/
theorem pollTimeoutSpec (fetch : Nat → Tenant) (ts : Nat)
    (h1 : 1 ≤ ts / interval)
    (hnt : ∀ j, statusD (fetch j) ≠ "active" ∧ statusD (fetch j) ≠ "failed") :
    (poll_provisioning fetch ts).res = .timeout (fetch (ts / interval - 1)) ∧
      (poll_provisioning fetch ts).fetches = ts / interval ∧
      Msg.pollTimeoutMsg ts ∈ (poll_provisioning fetch ts).log := by
  obtain ⟨r, hr⟩ : ∃ r, ts / interval = r + 1 := ⟨ts / interval - 1, by omega⟩
  have h := pollGo_nonterm_res fetch ts hnt r 0 none [Msg.pollStart]
  have hm := pollGo_timeout_mem fetch ts hnt (ts / interval) 0 none [Msg.pollStart]
  rw [hr] at hm
  unfold poll_provisioning
  rw [hr]
  refine ⟨?_, ?_, hm⟩
  · rw [show r + 1 - 1 = 0 + r by omega]
    exact h.1
  · rw [h.2]
    omega

/-- C2 (amended restated): see `pollTimeoutSpec` for the proof body. -/
theorem poll_provisioning_timeout_behavior (fetch : Nat → Tenant) (ts : Nat)
    (h1 : 1 ≤ ts / interval)
    (hnt : ∀ j, statusD (fetch j) ≠ "active" ∧ statusD (fetch j) ≠ "failed") :
    (poll_provisioning fetch ts).res = .timeout (fetch (ts / interval - 1)) ∧
      (poll_provisioning fetch ts).fetches = ts / interval ∧
      Msg.pollTimeoutMsg ts ∈ (poll_provisioning fetch ts).log :=
  pollTimeoutSpec fetch ts h1 hnt

/-- C2 (witness): an all-`provisioning` backend with the default 240-second
timeout: 24 fetches, timeout outcome returning the last record. -/
theorem poll_provisioning_timeout_behavior_witness :
    (poll_provisioning (fun _ => provTenant) 240).res = .timeout provTenant ∧
      (poll_provisioning (fun _ => provTenant) 240).fetches = 24 ∧
      Msg.pollTimeoutMsg 240 ∈ (poll_provisioning (fun _ => provTenant) 240).log := by
  have hnt : ∀ j, statusD ((fun _ : Nat => provTenant) j) ≠ "active" ∧
      statusD ((fun _ : Nat => provTenant) j) ≠ "failed" := by
    intro j
    show statusD provTenant ≠ "active" ∧ statusD provTenant ≠ "failed"
    exact ⟨by decide, by decide⟩
  have h := poll_provisioning_timeout_behavior (fun _ => provTenant) 240 (by decide) hnt
  exact ⟨h.1, h.2.1, h.2.2⟩

/-- C3: for every scripted sequence whose first terminal status (`active`
or `failed`) appears at fetch index `k` within the iteration budget,
`poll_provisioning` returns that record via the early-`return` branch after
exactly `k + 1` fetches — no further fetch is issued; in particular the
sequence `[provisioning, provisioning, active]` yields the `active` record
after exactly 3 fetches, and `[provisioning, failed]` yields the `failed`
record at the second fetch, far below the 24-fetch budget of the default
240-second timeout. -/
theorem poll_provisioning_first_terminal_stops (fetch : Nat → Tenant) (ts k : Nat)
    (hk : k < ts / interval)
    (hpre : ∀ j, j < k → statusD (fetch j) ≠ "active" ∧ statusD (fetch j) ≠ "failed")
    (hterm : statusD (fetch k) = "active" ∨ statusD (fetch k) = "failed") :
    ((poll_provisioning fetch ts).res = .terminal (fetch k) ∧
      (poll_provisioning fetch ts).fetches = k + 1) ∧
      ((poll_provisioning (script [provTenant, provTenant, activeTenant]) 240).res =
          .terminal activeTenant ∧
        (poll_provisioning (script [provTenant, provTenant, activeTenant]) 240).fetches = 3) ∧
      ((poll_provisioning (script [provTenant, failedTenant]) 240).res =
          .terminal failedTenant ∧
        (poll_provisioning (script [provTenant, failedTenant]) 240).fetches = 2) := by
  refine ⟨?_, by decide, by decide⟩
  have hpre0 : ∀ j, j < k →
      statusD (fetch (0 + j)) ≠ "active" ∧ statusD (fetch (0 + j)) ≠ "failed" := by
    intro j hj
    simpa using hpre j hj
  have hterm0 : statusD (fetch (0 + k)) = "active" ∨ statusD (fetch (0 + k)) = "failed" := by
    simpa using hterm
  have h := pollGo_first_terminal fetch ts k (ts / interval) 0 none [Msg.pollStart] hk
    hpre0 hterm0
  unfold poll_provisioning
  simpa using h

/-- C3 (witness): the `[provisioning, provisioning, active]` script with the
default timeout: terminal `active` record after exactly 3 fetches. -/
theorem poll_provisioning_first_terminal_stops_witness :
    (poll_provisioning (script [provTenant, provTenant, activeTenant]) 240).res =
        .terminal (script [provTenant, provTenant, activeTenant] 2) ∧
      (poll_provisioning (script [provTenant, provTenant, activeTenant]) 240).fetches = 2 + 1 :=
  (poll_provisioning_first_terminal_stops (script [provTenant, provTenant, activeTenant]) 240 2
    (by decide) (by decide) (Or.inl (by decide))).1

/-- C9: calling `poll_provisioning` with `timeout_secs` strictly below the
fixed 10-second interval gives `iterations = timeout_secs // 10 = 0`: the
loop body never runs, no fetch is made, and the final `return t` raises
`NameError` because `t` was never bound. -/
theorem poll_provisioning_small_timeout_nameError (fetch : Nat → Tenant) (ts : Nat)
    (h : ts < 10) :
    (poll_provisioning fetch ts).res = .nameError ∧
      (poll_provisioning fetch ts).fetches = 0 := by
  have h0 : ts / interval = 0 := by
    unfold interval
    omega
  unfold poll_provisioning
  rw [h0]
  exact ⟨rfl, rfl⟩

/-- C9 (witness): `timeout_secs = 5` raises `NameError` after zero fetches. -/
theorem poll_provisioning_small_timeout_nameError_witness :
    (poll_provisioning (fun _ => provTenant) 5).res = .nameError ∧
      (poll_provisioning (fun _ => provTenant) 5).fetches = 0 :=
  poll_provisioning_small_timeout_nameError (fun _ => provTenant) 5 (by decide)

/-! ## Verifier and orchestrator theorems -/

/-- A tenant record with `status: "active"` but no container endpoint. -/
def noEndpointTenant : Tenant := ⟨"tenant-123", some "active", none, none, .missing⟩

/-- An environment where every stage up to and including the liveness check
succeeds and the health-monitor re-fetch has outcome `hf`. -/
def baseEnv (hf : Except Unit Tenant) : Env :=
  ⟨.ok "tok", .ok "tid", fun _ => activeTenant, .exc, .success 200, hf, false⟩

/-- An environment whose scripted backend reports `failed` at the second
poll. -/
def failEnv : Env :=
  ⟨.ok "tok", .ok "tid", script [provTenant, failedTenant], .exc, .success 200,
    .ok activeTenant, false⟩

/-- An environment whose tenant becomes `active` but carries no container
endpoint. -/
def noEpEnv : Env :=
  ⟨.ok "tok", .ok "tid", fun _ => noEndpointTenant, .exc, .success 200, .ok activeTenant, false⟩

/-- C8: the docker introspection in `verify_container` is best-effort: the
returned liveness verdict is identical for any two docker outcomes
(subprocess output with or without a matching entry, failure, timeout,
docker unavailable) — the docker query can only add messages, never change
the result. -/
theorem verify_container_docker_best_effort (t : Tenant) (d1 d2 : DockerOutcome)
    (p : ProbeOutcome) :
    (verify_container t d1 p).1 = (verify_container t d2 p).1 := by
  unfold verify_container
  by_cases h : endpointD t = ""
  · simp [h]
  · cases p with
    | success s => simp [h]
    | httpError c => by_cases hc : c = 404 ∨ c = 426 <;> simp [h, hc]
    | transportError => simp [h]

/-- C5: with a container endpoint present, the HTTP probe maps outcomes as:
any successful response (2xx, the only case where `urlopen` returns) passes;
a raised `HTTPError` with code 404 or 426 passes; any other `HTTPError`
code fails; any transport failure fails. -/
theorem verify_container_probe_policy (t : Tenant) (d : DockerOutcome)
    (h : endpointD t ≠ "") :
    (∀ s, (verify_container t d (.success s)).1 = true) ∧
      (verify_container t d (.httpError 404)).1 = true ∧
      (verify_container t d (.httpError 426)).1 = true ∧
      (∀ c, c ≠ 404 → c ≠ 426 → (verify_container t d (.httpError c)).1 = false) ∧
      (verify_container t d .transportError).1 = false := by
  refine ⟨fun s => by simp [verify_container, h], by simp [verify_container, h],
    by simp [verify_container, h], fun c hc1 hc2 => ?_, by simp [verify_container, h]⟩
  have hc : ¬ (c = 404 ∨ c = 426) := by omega
  simp [verify_container, h, hc]

/-- C5 (witness): the policy at the concrete `active` tenant: 200 passes,
404 and 426 pass, 500 fails, transport failure fails. -/
theorem verify_container_probe_policy_witness :
    (verify_container activeTenant .exc (.success 200)).1 = true ∧
      (verify_container activeTenant .exc (.httpError 404)).1 = true ∧
      (verify_container activeTenant .exc (.httpError 426)).1 = true ∧
      (verify_container activeTenant .exc (.httpError 500)).1 = false ∧
      (verify_container activeTenant .exc .transportError).1 = false :=
  have h := verify_container_probe_policy activeTenant .exc (by decide)
  ⟨h.1 200, h.2.1, h.2.2.1, h.2.2.2.1 500 (by decide) (by decide), h.2.2.2.2⟩

/-- C4 (counterexample): when authentication, creation, polling (`active`)
and the liveness check all succeed but the health-monitor status re-fetch
itself raises, the exception propagates out of `verify_health_monitor` into
`main`'s top-level handler: the run ends with `FATAL ERROR` and exit code
1, not the claimed warning with exit code 0. -/
theorem main_health_refetch_fatal_cex :
    (main_run (baseEnv (.error ()))).1 = 1 ∧
      Msg.fatalError ∈ (main_run (baseEnv (.error ()))).2 := by
  refine ⟨by decide, by decide⟩

/-- C4 (amended): when authentication, creation, polling (terminal
`active`) and the liveness check succeed and the health-monitor re-fetch
returns a record (does not raise), any health-value failure —
`containerHealth` missing, not a dict, or carrying any status other than
`"healthy"` — produces only a warning and the process exits 0; but if the
re-fetch itself raises, `main`'s top-level handler reports a fatal error
and the process exits 1. -/
theorem main_health_value_failure_warns_exit0 (env : Env) (tok tid : String)
    (t thealth : Tenant)
    (ha : env.auth = .ok tok) (hc : env.create = .ok tid)
    (hres : (poll_provisioning env.fetch pollTimeoutDefault).res = .terminal t)
    (hact : t.status = some "active")
    (hvc : (verify_container t env.docker env.probe).1 = true)
    (hskip : env.skipHealthWait = false)
    (hh : env.healthFetch = .ok thealth) :
    (main_run env).1 = 0 ∧
      (healthStatusD thealth ≠ "healthy" → Msg.warnHealthNonFatal ∈ (main_run env).2) := by
  rcases hv : verify_container t env.docker env.probe with ⟨ok, vlog⟩
  rw [hv] at hvc
  simp only at hvc
  subst hvc
  by_cases hhs : healthStatusD thealth = "healthy"
  · constructor
    · simp [main_run, ha, hc, hres, hact, hv, hskip, hh, verify_health_monitor, hhs]
    · intro hne
      exact absurd hhs hne
  · constructor
    · simp [main_run, ha, hc, hres, hact, hv, hskip, hh, verify_health_monitor, hhs]
    · intro _
      simp [main_run, ha, hc, hres, hact, hv, hskip, hh, verify_health_monitor, hhs]

/-- C4 (witness): a run whose health re-fetch returns an `unhealthy` record
exits 0 with the non-fatal warning. -/
theorem main_health_value_failure_warns_exit0_witness :
    (main_run (baseEnv (.ok (mkTenant "provisioning")))).1 = 0 ∧
      Msg.warnHealthNonFatal ∈ (main_run (baseEnv (.ok (mkTenant "provisioning")))).2 := by
  have h := main_health_value_failure_warns_exit0 (baseEnv (.ok (mkTenant "provisioning")))
    "tok" "tid" activeTenant (mkTenant "provisioning") rfl rfl (by decide) rfl (by decide)
    rfl rfl
  exact ⟨h.1, h.2 (by decide)⟩

/-- C6: when authentication and creation succeed but every poll within the
budget reports a non-terminal status, `main` exits 1 and the reported
verdict is the timeout verdict: the trace contains the poller's timeout
message and no `PROVISIONING FAILED` message — while in a run whose poller
returns a `failed` record the trace shows the failure reason and no
timeout message, so the two verdicts are distinguishable. -/
theorem main_timeout_distinguishable (env : Env) (tok tid : String)
    (ha : env.auth = .ok tok) (hc : env.create = .ok tid)
    (hnt : ∀ j, statusD (env.fetch j) ≠ "active" ∧ statusD (env.fetch j) ≠ "failed") :
    ((main_run env).1 = 1 ∧
      Msg.pollTimeoutMsg pollTimeoutDefault ∈ (main_run env).2 ∧
      ∀ reason, Msg.provisioningFailedMsg reason ∉ (main_run env).2) ∧
      ((main_run failEnv).1 = 1 ∧
        Msg.provisioningFailedMsg "boom" ∈ (main_run failEnv).2 ∧
        Msg.pollTimeoutMsg pollTimeoutDefault ∉ (main_run failEnv).2) := by
  refine ⟨?_, by decide, by decide, by decide⟩
  have hpoll := pollTimeoutSpec env.fetch pollTimeoutDefault (by decide) hnt
  have hstat : (env.fetch (pollTimeoutDefault / interval - 1)).status ≠ some "active" :=
    statusD_ne_active (hnt (pollTimeoutDefault / interval - 1)).1
  have hnf := fun reason =>
    pollGo_no_failedMsg env.fetch pollTimeoutDefault hnt reason
      (pollTimeoutDefault / interval) 0 none [Msg.pollStart] (by simp)
  refine ⟨?_, ?_, ?_⟩
  · simp [main_run, ha, hc, hpoll.1, hstat]
  · simp [main_run, ha, hc, hpoll.1, hstat]
    exact hpoll.2.2
  · intro reason
    simp [main_run, ha, hc, hpoll.1, hstat]
    exact hnf reason

/-- C6 (witness): an all-`provisioning` backend under an otherwise healthy
environment: exit 1, timeout message present, no failure message. -/
theorem main_timeout_distinguishable_witness :
    (main_run (baseEnv (.ok activeTenant) |> fun e => { e with fetch := fun _ => provTenant })).1
        = 1 ∧
      Msg.pollTimeoutMsg pollTimeoutDefault ∈
        (main_run (baseEnv (.ok activeTenant) |> fun e =>
          { e with fetch := fun _ => provTenant })).2 := by
  have h := main_timeout_distinguishable
    (baseEnv (.ok activeTenant) |> fun e => { e with fetch := fun _ => provTenant })
    "tok" "tid" rfl rfl
    (by
      intro j
      show statusD provTenant ≠ "active" ∧ statusD provTenant ≠ "failed"
      exact ⟨by decide, by decide⟩)
  exact ⟨h.1.1, h.1.2.1⟩

/-- C10: a tenant that reached `active` without a `config.containerEndpoint`
(config absent, field absent, or empty — all read back as the empty string)
makes `verify_container` return failure immediately, with no docker query
and no HTTP probe issued, and `main` then exits 1: a hard failure, not a
warning. -/
theorem main_missing_endpoint_hard_failure (env : Env) (tok tid : String) (t : Tenant)
    (ha : env.auth = .ok tok) (hc : env.create = .ok tid)
    (hres : (poll_provisioning env.fetch pollTimeoutDefault).res = .terminal t)
    (hact : t.status = some "active")
    (hend : endpointD t = "") :
    (verify_container t env.docker env.probe).1 = false ∧
      Msg.dockerQueried ∉ (verify_container t env.docker env.probe).2 ∧
      (∀ u, Msg.httpProbed u ∉ (verify_container t env.docker env.probe).2) ∧
      (main_run env).1 = 1 := by
  have hvc : verify_container t env.docker env.probe =
      (false, [.verifyStart, .noEndpointError]) := by
    unfold verify_container
    simp [hend]
  refine ⟨by rw [hvc], by rw [hvc]; simp, fun u => by rw [hvc]; simp, ?_⟩
  simp [main_run, ha, hc, hres, hact, hvc]

/-- C10 (witness): the concrete endpoint-less `active` tenant: liveness
fails with no outward request and the orchestrator exits 1. -/
theorem main_missing_endpoint_hard_failure_witness :
    (verify_container noEndpointTenant noEpEnv.docker noEpEnv.probe).1 = false ∧
      Msg.dockerQueried ∉ (verify_container noEndpointTenant noEpEnv.docker noEpEnv.probe).2 ∧
      Msg.httpProbed "http://localhost:4001" ∉
        (verify_container noEndpointTenant noEpEnv.docker noEpEnv.probe).2 ∧
      (main_run noEpEnv).1 = 1 := by
  have h := main_missing_endpoint_hard_failure noEpEnv "tok" "tid" noEndpointTenant rfl rfl
    (by decide) rfl rfl
  exact ⟨h.1, h.2.1, h.2.2.1 "http://localhost:4001", h.2.2.2⟩
